import Mathlib

/-!
Verification of the G-Guardian backend core (offline risk engine, guardian
registry, location store, message templates, phrase suggestion) against its
specification.  All definitions below are shallow embeddings of the
JavaScript source (`src/unnamed/part_001`, with the identical fallback
engine in `src/server/index.js`): JS strings become `String`, JS numbers in
the scoring/counting paths become `Int`/`Nat`, JS `null`/`undefined`
optionality becomes `Option`, and fallible handlers return `Except`.
-/

/-! ## JavaScript string-primitive models -/

/-- Model of JS `String.prototype.toLowerCase` (the source strings are
ASCII, where the simple character mapping agrees with JS). -/
def jsToLowerCase (s : String) : String := ⟨s.data.map Char.toLower⟩

/-- Model of JS `String.prototype.toUpperCase`. -/
def jsToUpperCase (s : String) : String := ⟨s.data.map Char.toUpper⟩

/-- Whitespace as recognized by JS `trim` (the ASCII part, which is all the
source ever feeds it). -/
def jsIsSpace (c : Char) : Bool :=
  c = ' ' || c = '\t' || c = '\n' || c = '\r' || c = '\x0b' || c = '\x0c'

/-- Drop leading and trailing whitespace from a character list. -/
def trimChars (l : List Char) : List Char :=
  ((l.dropWhile jsIsSpace).reverse.dropWhile jsIsSpace).reverse

/-- Model of JS `String.prototype.trim`. -/
def jsTrim (s : String) : String := ⟨trimChars s.data⟩

/-- `charsStartWith l p` : the list `l` begins with the list `p`
(JS `startsWith` on the underlying characters). -/
def charsStartWith : List Char → List Char → Bool
  | _, [] => true
  | [], _ :: _ => false
  | c :: l, d :: p => c = d && charsStartWith l p

/-- `charsInclude l p` : the list `p` occurs contiguously inside `l`
(JS `includes` on the underlying characters). -/
def charsInclude : List Char → List Char → Bool
  | l, p =>
    charsStartWith l p ||
      match l with
      | [] => false
      | _ :: t => charsInclude t p

/-- Model of JS `String.prototype.startsWith`. -/
def jsStartsWith (s pat : String) : Bool := charsStartWith s.data pat.data

/-- Model of JS `String.prototype.includes`. -/
def jsIncludes (s pat : String) : Bool := charsInclude s.data pat.data

/-! ## Data model (spec section 3) -/

/-- Scenario Input: `{timeOfDay, userAlone, neighborhoodType, routeLighting,
scenarioId}`.  JS `undefined`/missing strings are modelled as `""` (the
only falsy string). -/
structure Scenario where
  timeOfDay : String
  userAlone : Bool
  neighborhoodType : String
  routeLighting : String
  scenarioId : String
deriving DecidableEq, Repr

/-- Risk Assessment Result, as returned by `offlineRiskEngine` /
`fallbackRisk`. -/
structure RiskResult where
  riskScore : Int
  riskLevel : String
  reasoning : String
  guardianMessage : String
  saferAction : String
deriving DecidableEq, Repr

/-! ## Offline risk engine (src/unnamed/part_001 lines 237-269;
identical `fallbackRisk` in src/server/index.js lines 502-534) -/

/-- Source helper `clamp(v, min, max)` (part_001 line 62). -/
def clamp (v lo hi : Int) : Int := if v < lo then lo else if v > hi then hi else v

/-- The raw additive score of `offlineRiskEngine` before clamping: the
chain of `score += ...` statements at part_001 lines 238-244. -/
def rawScore (input : Scenario) : Int :=
  (if input.timeOfDay = "night" then 25 else 0) +
  (if input.userAlone = true then 25 else 0) +
  (if input.neighborhoodType = "industrial" then 20 else 0) +
  (if input.neighborhoodType = "downtown" then 10 else 0) +
  (if input.routeLighting = "poor" then 20 else 0) +
  (if input.routeLighting = "mixed" then 10 else 0)

/-- Classification of a (clamped) score, part_001 lines 248-250:
`let riskLevel = "LOW"; if (score >= 70) riskLevel = "HIGH";
else if (score >= 40) riskLevel = "MEDIUM";`. -/
def classifyRisk (score : Int) : String :=
  if score ≥ 70 then "HIGH" else if score ≥ 40 then "MEDIUM" else "LOW"

/-- `offlineRiskEngine(input)`, part_001 lines 237-269. -/
def offlineRiskEngine (input : Scenario) : RiskResult :=
  let score := clamp (rawScore input) 0 100
  let riskLevel := classifyRisk score
  let reasoning :=
    "Offline score computed from inputs: timeOfDay=" ++ input.timeOfDay ++
    ", userAlone=" ++ (if input.userAlone then "true" else "false") ++
    ", neighborhoodType=" ++ input.neighborhoodType ++
    ", routeLighting=" ++ input.routeLighting
  let guardianMessage :=
    if riskLevel = "HIGH" then
      "High risk detected. Stay alert and consider contacting someone you trust."
    else if riskLevel = "MEDIUM" then
      "Moderate risk detected. Stay aware of your surroundings."
    else
      "Low risk detected. Exercise normal caution."
  let saferAction :=
    if riskLevel = "HIGH" then
      "Avoid the route if possible, choose a well-lit path, or ask someone to accompany you."
    else if riskLevel = "MEDIUM" then
      "Prefer well-lit routes and stay in populated areas."
    else
      "Proceed but remain aware of surroundings."
  { riskScore := score, riskLevel := riskLevel, reasoning := reasoning,
    guardianMessage := guardianMessage, saferAction := saferAction }

/-- `fallbackRisk(input)`, src/server/index.js lines 502-534.  Identical to
`offlineRiskEngine` except for the prefix of the `reasoning` string. -/
def fallbackRisk (input : Scenario) : RiskResult :=
  let score := clamp (rawScore input) 0 100
  let riskLevel := classifyRisk score
  let reasoning :=
    "Score computed from inputs: timeOfDay=" ++ input.timeOfDay ++
    ", userAlone=" ++ (if input.userAlone then "true" else "false") ++
    ", neighborhoodType=" ++ input.neighborhoodType ++
    ", routeLighting=" ++ input.routeLighting
  let guardianMessage :=
    if riskLevel = "HIGH" then
      "High risk detected. Stay alert and consider contacting someone you trust."
    else if riskLevel = "MEDIUM" then
      "Moderate risk detected. Stay aware of your surroundings."
    else
      "Low risk detected. Exercise normal caution."
  let saferAction :=
    if riskLevel = "HIGH" then
      "Avoid the route if possible, choose a well-lit path, or ask someone to accompany you."
    else if riskLevel = "MEDIUM" then
      "Prefer well-lit routes and stay in populated areas."
    else
      "Proceed but remain aware of surroundings."
  { riskScore := score, riskLevel := riskLevel, reasoning := reasoning,
    guardianMessage := guardianMessage, saferAction := saferAction }

/-- The sum of the six fixed weights exactly as the claim words it
(spec section 4.1's weight table); compared against the source-derived
`rawScore`. -/
def specWeightSum (input : Scenario) : Int :=
  (if input.timeOfDay = "night" then 25 else 0) +
  (if input.userAlone = true then 25 else 0) +
  (if input.neighborhoodType = "industrial" then 20 else 0) +
  (if input.neighborhoodType = "downtown" then 10 else 0) +
  (if input.routeLighting = "poor" then 20 else 0) +
  (if input.routeLighting = "mixed" then 10 else 0)

/-! ### Score lemmas -/

theorem clamp_nonneg_le (v lo hi : Int) (h : lo ≤ hi) :
    lo ≤ clamp v lo hi ∧ clamp v lo hi ≤ hi := by
  unfold clamp; split_ifs <;> omega

theorem clamp_mono {a b lo hi : Int} (hlo : lo ≤ hi) (h : a ≤ b) :
    clamp a lo hi ≤ clamp b lo hi := by
  unfold clamp; split_ifs <;> omega

theorem rawScore_nonneg (i : Scenario) : 0 ≤ rawScore i := by
  unfold rawScore; split_ifs <;> omega

theorem rawScore_le_90 (i : Scenario) : rawScore i ≤ 90 := by
  unfold rawScore
  have hn : (if i.neighborhoodType = "industrial" then (20 : Int) else 0) +
      (if i.neighborhoodType = "downtown" then (10 : Int) else 0) ≤ 20 := by
    by_cases h : i.neighborhoodType = "industrial"
    · rw [if_pos h, if_neg (by rw [h]; decide)]; omega
    · rw [if_neg h]; split_ifs <;> omega
  have hl : (if i.routeLighting = "poor" then (20 : Int) else 0) +
      (if i.routeLighting = "mixed" then (10 : Int) else 0) ≤ 20 := by
    by_cases h : i.routeLighting = "poor"
    · rw [if_pos h, if_neg (by rw [h]; decide)]; omega
    · rw [if_neg h]; split_ifs <;> omega
  have ht : (if i.timeOfDay = "night" then (25 : Int) else 0) ≤ 25 := by
    split_ifs <;> omega
  have ha : (if i.userAlone = true then (25 : Int) else 0) ≤ 25 := by
    split_ifs <;> omega
  omega

theorem clamp_rawScore_eq (i : Scenario) : clamp (rawScore i) 0 100 = rawScore i := by
  have h1 := rawScore_nonneg i
  have h2 := rawScore_le_90 i
  unfold clamp; split_ifs <;> omega

/-- C1: for every scenario input, the engine's riskScore equals the sum of
the six fixed weights (+25 night, +25 alone, +20 industrial, +10 downtown,
+20 poor lighting, +10 mixed lighting) clamped to [0, 100], hence always
lies in [0, 100]; `fallbackRisk` computes the same score. -/
theorem riskScore_is_clamped_weight_sum_in_range (i : Scenario) :
    (offlineRiskEngine i).riskScore = clamp (specWeightSum i) 0 100 ∧
    0 ≤ (offlineRiskEngine i).riskScore ∧
    (offlineRiskEngine i).riskScore ≤ 100 ∧
    (fallbackRisk i).riskScore = (offlineRiskEngine i).riskScore := by
  refine ⟨rfl, ?_, ?_, rfl⟩
  · exact (clamp_nonneg_le (rawScore i) 0 100 (by omega)).1
  · exact (clamp_nonneg_le (rawScore i) 0 100 (by omega)).2

/-- C2: the risk classification is derived from the clamped score by the
thresholds `score ≥ 70 → HIGH`, `40 ≤ score < 70 → MEDIUM`, else `LOW`;
in particular 40 classifies MEDIUM, 39 LOW, 70 HIGH and 69 MEDIUM. -/
theorem riskLevel_thresholds (i : Scenario) :
    (offlineRiskEngine i).riskLevel = classifyRisk ((offlineRiskEngine i).riskScore) ∧
    (fallbackRisk i).riskLevel = classifyRisk ((fallbackRisk i).riskScore) ∧
    classifyRisk 40 = "MEDIUM" ∧ classifyRisk 39 = "LOW" ∧
    classifyRisk 70 = "HIGH" ∧ classifyRisk 69 = "MEDIUM" ∧
    (∀ s : Int, s ≥ 70 → classifyRisk s = "HIGH") ∧
    (∀ s : Int, 40 ≤ s → s < 70 → classifyRisk s = "MEDIUM") ∧
    (∀ s : Int, s < 40 → classifyRisk s = "LOW") := by
  refine ⟨rfl, rfl, by decide, by decide, by decide, by decide, ?_, ?_, ?_⟩
  · intro s hs; unfold classifyRisk; rw [if_pos hs]
  · intro s h1 h2; unfold classifyRisk; rw [if_neg (by omega), if_pos h1]
  · intro s hs; unfold classifyRisk; rw [if_neg (by omega), if_neg (by omega)]

/-- C5: the risk score is monotone in its inputs: with all other fields
fixed, moving routeLighting along good → mixed → poor never decreases the
score, and flipping userAlone from false to true never decreases it. -/
theorem riskScore_monotone (s : Scenario) :
    (offlineRiskEngine { s with routeLighting := "good" }).riskScore ≤
      (offlineRiskEngine { s with routeLighting := "mixed" }).riskScore ∧
    (offlineRiskEngine { s with routeLighting := "mixed" }).riskScore ≤
      (offlineRiskEngine { s with routeLighting := "poor" }).riskScore ∧
    (offlineRiskEngine { s with userAlone := false }).riskScore ≤
      (offlineRiskEngine { s with userAlone := true }).riskScore := by
  refine ⟨?_, ?_, ?_⟩ <;>
  · show clamp _ 0 100 ≤ clamp _ 0 100
    apply clamp_mono (by omega)
    unfold rawScore
    dsimp only
    split_ifs <;> first | omega | simp_all

/-- C10: the raw sum is at most 90 (industrial and downtown are mutually
exclusive, as are poor and mixed lighting), so the upper clamp at 100 is
never active and the riskScore of both engines always lies in [0, 90]. -/
theorem riskScore_le_90_clamp_inactive (i : Scenario) :
    (offlineRiskEngine i).riskScore = rawScore i ∧
    (fallbackRisk i).riskScore = rawScore i ∧
    0 ≤ (offlineRiskEngine i).riskScore ∧
    (offlineRiskEngine i).riskScore ≤ 90 := by
  have h := clamp_rawScore_eq i
  refine ⟨h, h, ?_, ?_⟩
  · rw [show (offlineRiskEngine i).riskScore = clamp (rawScore i) 0 100 from rfl, h]
    exact rawScore_nonneg i
  · rw [show (offlineRiskEngine i).riskScore = clamp (rawScore i) 0 100 from rfl, h]
    exact rawScore_le_90 i

/-! ## Guardian registry (src/unnamed/part_001 lines 184-209, 578-613) -/

/-- Guardian record (spec section 3).  `createdAt` is the `Date.now()`
timestamp. -/
structure Guardian where
  id : String
  name : String
  method : String
  value : String
  relationship : String
  createdAt : Int
deriving DecidableEq, Repr

/-- A character admissible in the tail of the loose phone pattern:
the class `[0-9\s\-()]` of the source regex. -/
def phoneTailChar (c : Char) : Bool :=
  c.isDigit || jsIsSpace c || c = '-' || c = '(' || c = ')'

/-- After the optional leading `+`: a digit followed by at least six
characters of the class, consuming the whole string. -/
def phoneAfterPlus : List Char → Bool
  | [] => false
  | d :: t => d.isDigit && decide (6 ≤ t.length) && t.all phoneTailChar

/-- The loose phone pattern `/^\+?[0-9][0-9\s\-()]{6,}$/` of
`validateGuardianInput` (part_001 line 206). -/
def phoneOk (v : String) : Bool :=
  match v.data with
  | '+' :: rest => phoneAfterPlus rest
  | l => phoneAfterPlus l

/-- `validateGuardianInput({name, method, value})`, part_001 lines 196-209:
every violated rule is pushed onto a single `errors` list, in source
order, and the whole list is returned. -/
def validateGuardianInput (name method value : String) : List String :=
  let m := jsToLowerCase method
  let v := jsTrim value
  (if jsTrim name = "" then ["name_required"] else []) ++
  (if ¬(m = "sms" ∨ m = "email") then ["method_must_be_sms_or_email"] else []) ++
  (if v = "" then ["value_required"] else []) ++
  (if m = "email" ∧ v ≠ "" ∧ jsIncludes v "@" = false then ["email_invalid"] else []) ++
  (if m = "sms" ∧ v ≠ "" ∧ phoneOk v = false then ["phone_invalid"] else [])

theorem mem_ite_singleton {e x : String} {c : Prop} [Decidable c] :
    (e ∈ if c then [x] else []) ↔ c ∧ e = x := by
  split_ifs with h <;> simp [h, eq_comm]

/-- C3: guardian-add validation is batch, not fail-fast: an error token is
in the returned list exactly when its rule is violated, so all violated
rules are reported together; in particular an email guardian with value
"not-an-email" gets `email_invalid` and an sms guardian with value "12"
gets `phone_invalid` (alongside any other violations). -/
theorem validateGuardianInput_batch :
    (∀ name method value e,
      e ∈ validateGuardianInput name method value ↔
        ((jsTrim name = "" ∧ e = "name_required") ∨
         (¬(jsToLowerCase method = "sms" ∨ jsToLowerCase method = "email") ∧
            e = "method_must_be_sms_or_email") ∨
         (jsTrim value = "" ∧ e = "value_required") ∨
         (jsToLowerCase method = "email" ∧ jsTrim value ≠ "" ∧
            jsIncludes (jsTrim value) "@" = false ∧ e = "email_invalid") ∨
         (jsToLowerCase method = "sms" ∧ jsTrim value ≠ "" ∧
            phoneOk (jsTrim value) = false ∧ e = "phone_invalid"))) ∧
    "email_invalid" ∈ validateGuardianInput "" "email" "not-an-email" ∧
    "phone_invalid" ∈ validateGuardianInput "" "sms" "12" := by
  refine ⟨?_, by decide, by decide⟩
  intro name method value e
  unfold validateGuardianInput
  simp only [List.mem_append, mem_ite_singleton]
  tauto

/-- The core of `DELETE /api/guardians/:id` (part_001 lines 608-612):
filter out the records whose `id` equals the (trimmed) path id and report
how many were dropped. -/
def removeGuardian (id : String) (list : List Guardian) : List Guardian × Nat :=
  let next := list.filter (fun g => g.id ≠ id)
  (next, list.length - next.length)

/-- The full `DELETE /api/guardians/:id` handler (part_001 lines 604-613):
the path id is trimmed; an id that trims to the empty string is rejected
with `missing_id`, otherwise the filtered collection is persisted and the
removed count returned. -/
def deleteGuardianRoute (idRaw : String) (list : List Guardian) :
    Except String (List Guardian × Nat) :=
  let id := jsTrim idRaw
  if id = "" then Except.error "missing_id"
  else Except.ok (removeGuardian id list)

theorem length_filter_matches (id : String) (list : List Guardian) :
    (list.filter (fun g => g.id ≠ id)).length + (list.filter (fun g => g.id = id)).length
      = list.length := by
  induction list with
  | nil => rfl
  | cons g t ih =>
    simp only [List.filter_cons]
    by_cases h : g.id = id
    · rw [if_neg (by simp [h]), if_pos (by simp [h])]
      simp only [List.length_cons]
      omega
    · rw [if_pos (by simp [h]), if_neg (by simp [h])]
      simp only [List.length_cons]
      omega

theorem filter_matches_le_one (id : String) (list : List Guardian)
    (hnd : (list.map Guardian.id).Nodup) :
    (list.filter (fun g => g.id = id)).length ≤ 1 := by
  induction list with
  | nil => simp
  | cons g t ih =>
    simp only [List.map_cons, List.nodup_cons] at hnd
    by_cases h : g.id = id
    · have : t.filter (fun g => g.id = id) = [] := by
        apply List.filter_eq_nil_iff.mpr
        intro a ha hc
        exact hnd.1 (by rw [← h] at hc; simp at hc; rw [← hc]; exact List.mem_map_of_mem _ ha)
      simp [List.filter_cons, h, this]
    · simpa [List.filter_cons, h] using ih hnd.2

/-- C8: guardian removal returns the number of removed records, which under
the id-uniqueness invariant is always 0 or 1; a (well-formed, nonempty) id
that is not present removes nothing, leaves the collection unchanged, and
the route does not error. -/
theorem removeGuardian_count (id : String) (list : List Guardian)
    (hnd : (list.map Guardian.id).Nodup) :
    ((removeGuardian id list).2 = 0 ∨ (removeGuardian id list).2 = 1) ∧
    (id ∉ list.map Guardian.id →
      (removeGuardian id list).2 = 0 ∧ (removeGuardian id list).1 = list) ∧
    (jsTrim id ≠ "" →
      deleteGuardianRoute id list = Except.ok (removeGuardian (jsTrim id) list)) := by
  have hlen := length_filter_matches id list
  have hle := filter_matches_le_one id list hnd
  refine ⟨?_, ?_, ?_⟩
  · show (list.length - (list.filter (fun g => g.id ≠ id)).length = 0) ∨
      (list.length - (list.filter (fun g => g.id ≠ id)).length = 1)
    omega
  · intro habs
    have hfull : list.filter (fun g => g.id ≠ id) = list := by
      apply List.filter_eq_self.mpr
      intro a ha
      simp only [ne_eq, decide_eq_true_eq]
      intro hc
      exact habs (hc ▸ List.mem_map_of_mem _ ha)
    constructor
    · show list.length - (list.filter (fun g => g.id ≠ id)).length = 0
      rw [hfull]; omega
    · exact hfull
  · intro hne
    unfold deleteGuardianRoute
    rw [if_neg hne]

/-- Witness for `removeGuardian_count`: a concrete one-guardian collection
and an absent id. -/
theorem removeGuardian_count_witness :
    (([⟨"g_1", "Ada", "sms", "+5551234567", "friend", 0⟩] : List Guardian).map
        Guardian.id).Nodup ∧
    (removeGuardian "g_2" [⟨"g_1", "Ada", "sms", "+5551234567", "friend", 0⟩]).2 = 0 ∧
    (removeGuardian "g_2" [⟨"g_1", "Ada", "sms", "+5551234567", "friend", 0⟩]).1 =
      [⟨"g_1", "Ada", "sms", "+5551234567", "friend", 0⟩] ∧
    deleteGuardianRoute "g_2" [⟨"g_1", "Ada", "sms", "+5551234567", "friend", 0⟩] =
      Except.ok (removeGuardian (jsTrim "g_2") [⟨"g_1", "Ada", "sms", "+5551234567", "friend", 0⟩]) := by
  have h := removeGuardian_count "g_2" [⟨"g_1", "Ada", "sms", "+5551234567", "friend", 0⟩]
    (by decide)
  exact ⟨by decide, (h.2.1 (by decide)).1, (h.2.1 (by decide)).2, h.2.2 (by decide)⟩

/-! ## Location store and Memory singleton (src/unnamed/part_001
lines 170-182, 214-232) -/

/-- Last Location singleton: `{lat, lng, accuracy, ts}`, each `null`able.
JS finite numbers are modelled as `ℚ` (`Number.isFinite` holds exactly on
the `some` values, since the JSON store cannot hold `NaN`/`Infinity`). -/
structure LastLocation where
  lat : Option ℚ
  lng : Option ℚ
  accuracy : Option ℚ
  ts : Option Int
deriving DecidableEq, Repr

/-- The `MEMORY.lastGeneratedMessage` record written by
`POST /api/emergency-script` (part_001 lines 709-714). -/
structure GenMessage where
  ts : Int
  riskLevel : String
  contactType : String
  preview : String
deriving DecidableEq, Repr

/-- Memory singleton (part_001 lines 172-178). -/
structure Memory where
  hasMemory : Bool
  lastLowScenarioId : Option String
  lastSaferAction : Option String
  lastGeneratedMessage : Option GenMessage
  lastLocationTs : Option Int
deriving DecidableEq, Repr

/-- `POST /api/risk-assess` (part_001 lines 680-697), after the caller-side
required-field check: runs the engine and, exactly when the classification
is LOW, writes `{hasMemory := true, lastLowScenarioId, lastSaferAction}`
into Memory and persists it (`saveMemory`).  The returned `Bool` records
whether `saveMemory` was called.  The `|| null` coalescing of the source
maps the empty (falsy) string to `none`. -/
def riskAssessRoute (body : Scenario) (mem : Memory) :
    RiskResult × Memory × Bool :=
  let out := offlineRiskEngine body
  if out.riskLevel = "LOW" then
    (out,
     { mem with
        hasMemory := true,
        lastLowScenarioId := if body.scenarioId = "" then none else some body.scenarioId,
        lastSaferAction := if out.saferAction = "" then none else some out.saferAction },
     true)
  else
    (out, mem, false)

/-- C7: after a risk assessment the Memory singleton is updated (scenario
id, LOW-level safer action, `hasMemory := true`) and persisted exactly when
the produced classification is LOW; any assessment classifying MEDIUM or
HIGH leaves Memory unchanged and does not persist. -/
theorem riskAssess_memory_iff_low (body : Scenario) (mem : Memory) :
    (riskAssessRoute body mem).2.1 =
      (if (offlineRiskEngine body).riskLevel = "LOW" then
        { mem with
            hasMemory := true,
            lastLowScenarioId :=
              if body.scenarioId = "" then none else some body.scenarioId,
            lastSaferAction :=
              if (offlineRiskEngine body).saferAction = "" then none
              else some (offlineRiskEngine body).saferAction }
       else mem) ∧
    ((riskAssessRoute body mem).2.2 = true ↔ (offlineRiskEngine body).riskLevel = "LOW") ∧
    ((offlineRiskEngine body).riskLevel = "MEDIUM" ∨
        (offlineRiskEngine body).riskLevel = "HIGH" →
      (riskAssessRoute body mem).2.1 = mem ∧ (riskAssessRoute body mem).2.2 = false) := by
  unfold riskAssessRoute
  by_cases h : (offlineRiskEngine body).riskLevel = "LOW"
  · rw [if_pos h, if_pos h]
    refine ⟨rfl, by simp [h], ?_⟩
    rintro (hm | hm) <;> rw [hm] at h <;> exact absurd h (by decide)
  · rw [if_neg h, if_neg h]
    exact ⟨rfl, by simp [h], fun _ => ⟨rfl, rfl⟩⟩

/-- Witness for `riskAssess_memory_iff_low`: the night-time alone scenario
scores 50 (MEDIUM), so a concrete Memory value is left unchanged. -/
theorem riskAssess_memory_iff_low_witness :
    (offlineRiskEngine ⟨"night", true, "residential", "good", "s9"⟩).riskLevel = "MEDIUM" ∧
    (riskAssessRoute ⟨"night", true, "residential", "good", "s9"⟩
        ⟨false, none, none, none, none⟩).2.1 = ⟨false, none, none, none, none⟩ := by
  refine ⟨by decide, ?_⟩
  exact ((riskAssess_memory_iff_low ⟨"night", true, "residential", "good", "s9"⟩
    ⟨false, none, none, none, none⟩).2.2 (Or.inl (by decide))).1

/-! ## Emergency package (src/unnamed/part_001 lines 431-476, 724-746) -/

/-- `makeMapsLink(lat, lng)` (part_001 lines 431-433).  URI-encoding a
plain numeral is the identity, so the encode step is dropped. -/
def makeMapsLink (lat lng : ℚ) : String :=
  "https://maps.google.com/?q=" ++ toString lat ++ "," ++ toString lng

/-- One entry of the per-guardian message list. -/
structure EmergencyMessage where
  guardianId : String
  method : String
  «to» : String
  text : String
  shareLink : String
deriving DecidableEq, Repr

/-- Emergency Package returned by `buildEmergencyMessages`. -/
structure EmergencyPackage where
  messages : List EmergencyMessage
  recommendedActions : List String
  shareLink : String
deriving DecidableEq, Repr

/-- `buildEmergencyMessages({riskLevel, note, guardians, location})`,
part_001 lines 435-476.  `note` is an `Option String` (`some ""` and
`none` are both falsy in JS, hence both yield the empty note line). -/
def buildEmergencyMessages (riskLevel : String) (note : Option String)
    (guardians : List Guardian) (lat lng : ℚ) : EmergencyPackage :=
  let level := jsToUpperCase (if riskLevel = "" then "HIGH" else riskLevel)
  let shareLink := makeMapsLink lat lng
  let locLine := "My live location: " ++ shareLink
  let noteLine :=
    match note with
    | some n => if n = "" then "" else "Note: " ++ n
    | none => ""
  let recommendedActions :=
    if level = "HIGH" then
      ["Move to a well-lit area", "Stay on call with someone you trust",
       "Share your live location", "Seek help nearby"]
    else if level = "MEDIUM" then
      ["Stay in populated areas", "Share your location", "Avoid isolated routes"]
    else
      ["Keep awareness", "Check in with a trusted person if needed"]
  let messages := guardians.map (fun g =>
    let text :=
      if g.method = "sms" then
        if level = "HIGH" then
          "I feel unsafe. Please call me now. " ++ locLine ++
            (if noteLine = "" then "" else " " ++ noteLine)
        else
          "Quick safety check-in. " ++ locLine ++
            (if noteLine = "" then "" else " " ++ noteLine)
      else
        if level = "HIGH" then
          "Hi " ++ g.name ++ ",\n\nI feel unsafe right now.\n" ++ locLine ++ "\n" ++
            noteLine ++ "\n\nPlease call me. If I don\x27t respond, please check on me.\n"
        else
          "Hi " ++ g.name ++ ",\n\nQuick check-in.\n" ++ locLine ++ "\n" ++ noteLine ++
            "\n\nThank you.\n"
    { guardianId := g.id, method := g.method, «to» := g.value,
      text := jsTrim text, shareLink := shareLink })
  { messages := messages, recommendedActions := recommendedActions, shareLink := shareLink }

/-- The error outcomes of `POST /api/emergency/prepare`
(part_001 lines 724-734). -/
inductive PrepError where
  | missing_riskLevel
  | no_guardians
  | no_location
deriving DecidableEq, Repr

/-- `POST /api/emergency/prepare` (part_001 lines 724-746): reject a falsy
riskLevel, then an empty guardian collection (`no_guardians`), then a
non-finite stored location (`no_location`); otherwise build the package
from the stored guardians and location. -/
def prepareEmergencyRoute (riskLevel : String) (note : Option String)
    (guardians : List Guardian) (location : LastLocation) :
    Except PrepError EmergencyPackage :=
  if riskLevel = "" then Except.error PrepError.missing_riskLevel
  else if guardians.length = 0 then Except.error PrepError.no_guardians
  else
    match location.lat, location.lng with
    | some lat, some lng =>
        Except.ok (buildEmergencyMessages riskLevel note guardians lat lng)
    | some _, none => Except.error PrepError.no_location
    | none, some _ => Except.error PrepError.no_location
    | none, none => Except.error PrepError.no_location

/-- C4: with an empty guardian collection, every (riskLevel-carrying)
prepare request fails with the distinct `no_guardians` precondition error,
whatever the stored location holds — valid or not. -/
theorem prepare_empty_guardians_no_guardians (riskLevel : String)
    (note : Option String) (location : LastLocation) (h : riskLevel ≠ "") :
    prepareEmergencyRoute riskLevel note [] location =
      Except.error PrepError.no_guardians := by
  unfold prepareEmergencyRoute
  rw [if_neg h]
  rfl

/-- Witness for `prepare_empty_guardians_no_guardians`, at a stored
location that is perfectly valid. -/
theorem prepare_empty_guardians_no_guardians_witness :
    ("HIGH" : String) ≠ "" ∧
    prepareEmergencyRoute "HIGH" (some "on my way") []
        ⟨some (41 : ℚ), some (29 : ℚ), some 5, some 1700000000⟩ =
      Except.error PrepError.no_guardians :=
  ⟨by decide,
   prepare_empty_guardians_no_guardians "HIGH" (some "on my way")
     ⟨some (41 : ℚ), some (29 : ℚ), some 5, some 1700000000⟩ (by decide)⟩

/-! ## Phrase suggestion (src/unnamed/part_001 lines 349-369) -/

/-- The fixed library of canned safety phrases (part_001 lines 352-362). -/
def presageLibrary : List String :=
  ["Can you stay on call with me for a few minutes?",
   "I\x27m sharing my live location now.",
   "If I stop replying, please check on me.",
   "I\x27m moving to a well-lit area.",
   "Can you meet me at a nearby public place?",
   "Please call me when you can.",
   "I\x27m not sure this route is safe—I\x27m taking another path.",
   "If needed, can you contact campus security for me?",
   "I\x27m feeling uncomfortable and want to be extra careful."]

/-- `presageSuggest(prefixRaw)`, part_001 lines 349-369: the raw prefix is
trimmed and lowercased; an empty result yields the first 6 entries;
otherwise start-matches (in library order) precede substring matches not
already listed, truncated to 8. -/
def presageSuggest (prefixRaw : String) : List String :=
  let p := jsToLowerCase (jsTrim prefixRaw)
  if p = "" then presageLibrary.take 6
  else
    let starts := presageLibrary.filter (fun s => jsStartsWith (jsToLowerCase s) p)
    let incl := presageLibrary.filter
      (fun s => !(starts.contains s) && jsIncludes (jsToLowerCase s) p)
    (starts ++ incl).take 8

/-- The suggestion algorithm exactly as the claim states it: the branch is
chosen on the *raw* prefix (no trimming); matching lowercases both sides.
Compared against the source-derived `presageSuggest`. -/
def claimStatedSuggest (p : String) : List String :=
  if p = "" then presageLibrary.take 6
  else
    let q := jsToLowerCase p
    let starts := presageLibrary.filter (fun s => jsStartsWith (jsToLowerCase s) q)
    let subs := presageLibrary.filter
      (fun s => !(starts.contains s) && jsIncludes (jsToLowerCase s) q)
    (starts ++ subs).take 8

theorem jsToLowerCase_eq_empty_iff (s : String) : jsToLowerCase s = "" ↔ s = "" := by
  cases s with
  | mk l =>
    constructor
    · intro h
      have h2 : l.map Char.toLower = [] := congrArg String.data h
      simp at h2
      simp [h2]
    · intro h
      have h2 : l = [] := congrArg String.data h
      simp [jsToLowerCase, h2]

/-- C6 counterexample: the claim quantifies over every non-empty prefix,
but the source trims first: on the non-empty prefix " " the code returns
the 6 default entries while the claimed algorithm returns 8 substring
matches (every phrase contains a space). -/
theorem presageSuggest_claim_fails_on_space :
    presageSuggest " " ≠ claimStatedSuggest " " := by decide

/-- C6 (amended): the prefix is first trimmed (and lowercased); against
that normalized prefix the suggestion list is exactly the claimed
partition — start-matches in library order, then substring matches not
already listed, truncated to 8 — with the empty(-after-trim) prefix
returning the first 6 entries; `suggest "can"` ranks the two
start-matching "Can you ..." phrases before the substring-only matches. -/
theorem presageSuggest_spec :
    (∀ p : String, presageSuggest p = claimStatedSuggest (jsTrim p)) ∧
    presageSuggest "" =
      ["Can you stay on call with me for a few minutes?",
       "I\x27m sharing my live location now.",
       "If I stop replying, please check on me.",
       "I\x27m moving to a well-lit area.",
       "Can you meet me at a nearby public place?",
       "Please call me when you can."] ∧
    presageSuggest "can" =
      ["Can you stay on call with me for a few minutes?",
       "Can you meet me at a nearby public place?",
       "Please call me when you can.",
       "If needed, can you contact campus security for me?"] := by
  refine ⟨?_, by decide, by decide⟩
  intro p
  unfold presageSuggest claimStatedSuggest
  by_cases h : jsTrim p = ""
  · rw [h]
    rfl
  · rw [if_neg ((not_congr (jsToLowerCase_eq_empty_iff (jsTrim p))).mpr h), if_neg h]

/-! ## Emergency script generator (src/unnamed/part_001 lines 274-343) -/

/-- Emergency Script record (spec section 3). -/
structure EmergencyScript where
  title : String
  text : String
  checklist : List String
  suggestedFollowups : List String
deriving DecidableEq, Repr

/-- The body of `buildEmergencyScript` after its four normalizing `const`s
(part_001 lines 280-343), as a function of the normalized
`level`, `contact`, `loc` and `ctx`. -/
def scriptCore (level contact loc ctx : String) : EmergencyScript :=
  let whereBit := if loc = "" then "" else " near " ++ loc
  let contextBit := if ctx = "" then "" else " (" ++ ctx ++ ")"
  let baseChecklist :=
    ["Share your live location", "Move to a well-lit / populated area",
     "Stay on call with someone you trust"]
  if contact = "campus" ∨ contact = "security" then
    { title := "Security message",
      text :=
        if level = "HIGH" then
          "Hi, I need help" ++ whereBit ++ ". I feel unsafe" ++ contextBit ++
            ". Please advise immediate steps and, if possible, send assistance."
        else
          "Hi, I\x27m requesting safety support" ++ whereBit ++ contextBit ++
            ". Can you advise the safest route / next steps?",
      checklist := "Share location with security" :: baseChecklist,
      suggestedFollowups :=
        ["I can share my exact location now.", "I\x27m moving to a well-lit area.",
         "Please stay on the line with me."] }
  else if contact = "family" then
    { title := "Family message",
      text :=
        if level = "HIGH" then
          "Hey, I feel unsafe" ++ whereBit ++ contextBit ++
            ". Can you stay on call with me? If I don\x27t reply in 5 minutes, please check on me."
        else
          "Hey, I\x27m heading somewhere" ++ whereBit ++ contextBit ++
            ". Can you stay available for a quick check-in?",
      checklist := "Send location to family" :: baseChecklist,
      suggestedFollowups :=
        ["I\x27m sharing my live location now.", "Can you call me for a few minutes?",
         "If I stop responding, please check on me."] }
  else
    { title := "Quick message",
      text :=
        if level = "HIGH" then
          "Hey, I feel unsafe" ++ whereBit ++ contextBit ++
            ". Can you stay on call with me for 10 minutes? If I stop replying, please check on me."
        else if level = "MEDIUM" then
          "Hey, I\x27m a bit uncomfortable" ++ whereBit ++ contextBit ++
            ". Can you stay on standby and check in with me in a few minutes?"
        else
          "Hey! Quick check-in: I\x27m walking" ++ whereBit ++ contextBit ++
            ". I\x27ll message when I arrive.",
      checklist := "Send to a trusted friend" :: baseChecklist,
      suggestedFollowups :=
        ["I\x27m sharing my live location now.", "Can you stay on call with me?",
         "I\x27ll text you when I arrive safely."] }

/-- `buildEmergencyScript({riskLevel, contactType, locationText, extra})`,
part_001 lines 274-343: `level = (riskLevel || "MEDIUM").toUpperCase()`,
`contact = (contactType || "friend").toLowerCase()`, `loc`/`ctx` trimmed,
then the template body `scriptCore`. -/
def buildEmergencyScript (riskLevel contactType locationText extra : String) :
    EmergencyScript :=
  scriptCore
    (jsToUpperCase (if riskLevel = "" then "MEDIUM" else riskLevel))
    (jsToLowerCase (if contactType = "" then "friend" else contactType))
    (jsTrim locationText) (jsTrim extra)

/-- C9 counterexample: the claim says an unrecognized riskLevel behaves as
if it were "MEDIUM", but in the friend bucket the source picks the MEDIUM
phrasing only on a literal "MEDIUM" level: the unrecognized "URGENT" falls
through to the LOW phrasing, which differs. -/
theorem buildEmergencyScript_unrecognized_not_medium :
    (buildEmergencyScript "URGENT" "friend" "" "").text ≠
      (buildEmergencyScript "MEDIUM" "friend" "" "").text := by decide

theorem jsToUpperCase_eq_empty_iff (s : String) : jsToUpperCase s = "" ↔ s = "" := by
  cases s with
  | mk l =>
    constructor
    · intro h
      have h2 : l.map Char.toUpper = [] := congrArg String.data h
      simp at h2
      simp [h2]
    · intro h
      have h2 : l = [] := congrArg String.data h
      simp [jsToUpperCase, h2]

theorem scriptCore_not_high_not_medium (level contact loc ctx : String)
    (h1 : level ≠ "HIGH") (h2 : level ≠ "MEDIUM") :
    scriptCore level contact loc ctx = scriptCore "LOW" contact loc ctx := by
  unfold scriptCore
  split_ifs <;> first | rfl | simp_all

theorem scriptCore_unknown_contact (level contact loc ctx : String)
    (h : ¬(contact = "campus" ∨ contact = "security" ∨ contact = "family")) :
    scriptCore level contact loc ctx = scriptCore level "friend" loc ctx := by
  unfold scriptCore
  split_ifs <;> first | rfl | simp_all

/-- C9 (amended): `buildEmergencyScript` depends on riskLevel only through
its uppercased form and on contactType only through its lowercased form;
an absent riskLevel defaults to "MEDIUM" with no hard error, but a present
unrecognized riskLevel (uppercasing to neither "HIGH" nor "MEDIUM")
behaves as if riskLevel were "LOW", not "MEDIUM"; an absent contactType or
one outside {campus, security, family} behaves as "friend". -/
theorem buildEmergencyScript_normalization :
    (∀ ct lt ex, buildEmergencyScript "" ct lt ex = buildEmergencyScript "MEDIUM" ct lt ex) ∧
    (∀ rl ct lt ex, rl ≠ "" → jsToUpperCase rl ≠ "HIGH" → jsToUpperCase rl ≠ "MEDIUM" →
      buildEmergencyScript rl ct lt ex = buildEmergencyScript "LOW" ct lt ex) ∧
    (∀ rl ct lt ex,
      ¬(jsToLowerCase ct = "campus" ∨ jsToLowerCase ct = "security" ∨
          jsToLowerCase ct = "family") →
      buildEmergencyScript rl ct lt ex = buildEmergencyScript rl "friend" lt ex) ∧
    (∀ rl rl2 ct ct2 lt ex, jsToUpperCase rl = jsToUpperCase rl2 →
      jsToLowerCase ct = jsToLowerCase ct2 →
      buildEmergencyScript rl ct lt ex = buildEmergencyScript rl2 ct2 lt ex) := by
  refine ⟨fun ct lt ex => rfl, ?_, ?_, ?_⟩
  · intro rl ct lt ex hne hH hM
    unfold buildEmergencyScript
    rw [if_neg hne]
    exact scriptCore_not_high_not_medium _ _ _ _ hH hM
  · intro rl ct lt ex h
    unfold buildEmergencyScript
    by_cases hc : ct = ""
    · rw [if_pos hc]
      rw [if_neg (by decide : ¬("friend" : String) = "")]
    · rw [if_neg hc, if_neg (by decide : ¬("friend" : String) = "")]
      exact scriptCore_unknown_contact _ _ _ _ (by simpa using h)
  · intro rl rl2 ct ct2 lt ex hU hL
    unfold buildEmergencyScript
    have hrl : rl = "" ↔ rl2 = "" := by
      constructor
      · intro h; exact (jsToUpperCase_eq_empty_iff rl2).mp (by rw [← hU, h]; rfl)
      · intro h; exact (jsToUpperCase_eq_empty_iff rl).mp (by rw [hU, h]; rfl)
    have hct : ct = "" ↔ ct2 = "" := by
      constructor
      · intro h; exact (jsToLowerCase_eq_empty_iff ct2).mp (by rw [← hL, h]; rfl)
      · intro h; exact (jsToLowerCase_eq_empty_iff ct).mp (by rw [hL, h]; rfl)
    by_cases h1 : rl = "" <;> by_cases h2 : ct = ""
    · rw [if_pos h1, if_pos h2, if_pos (hrl.mp h1), if_pos (hct.mp h2)]
    · rw [if_pos h1, if_neg h2, if_pos (hrl.mp h1), if_neg (fun hh => h2 (hct.mpr hh)), hL]
    · rw [if_neg h1, if_pos h2, if_neg (fun hh => h1 (hrl.mpr hh)), if_pos (hct.mp h2), hU]
    · rw [if_neg h1, if_neg h2, if_neg (fun hh => h1 (hrl.mpr hh)),
        if_neg (fun hh => h2 (hct.mpr hh)), hU, hL]

/-- Witness for `buildEmergencyScript_normalization`: each conjunct applied
at concrete inputs. -/
theorem buildEmergencyScript_normalization_witness :
    buildEmergencyScript "" "friend" "the park" "" =
      buildEmergencyScript "MEDIUM" "friend" "the park" "" ∧
    buildEmergencyScript "URGENT" "friend" "" "" = buildEmergencyScript "LOW" "friend" "" "" ∧
    buildEmergencyScript "HIGH" "boss" "" "" = buildEmergencyScript "HIGH" "friend" "" "" ∧
    buildEmergencyScript "high" "FRIEND" "" "" = buildEmergencyScript "HIGH" "friend" "" "" :=
  ⟨buildEmergencyScript_normalization.1 "friend" "the park" "",
   buildEmergencyScript_normalization.2.1 "URGENT" "friend" "" "" (by decide) (by decide)
     (by decide),
   buildEmergencyScript_normalization.2.2.1 "HIGH" "boss" "" "" (by decide),
   buildEmergencyScript_normalization.2.2.2 "high" "HIGH" "FRIEND" "friend" "" ""
     (by decide) (by decide)⟩
